import Mathlib

/-!
# URL shortener — verification of the write-path dedup / read-path core

Shallow embedding of `src/server/server.js`:

* the code generator (`crypto.createHash('sha256').update(longUrl).digest('hex')`
  followed by `substring(0, 16)`) is embedded as an executable SHA-256 over
  the UTF-8 bytes of the input string, with 32-bit words modelled as `Nat`
  reduced mod `2^32`;
* the DynamoDB table is a list of records keyed by `short_url`; the GSI
  `LongURLIndex` query is a filter on `long_url`; the conditional put fails
  exactly when the primary key `short_url` is already present;
* the DAX tier is a read-through cache: a hit serves the cached record, a
  miss falls back to the store;
* the `POST /url` handler is a function of the request body, the current
  epoch time, and the store as seen at its two I/O points (query time and
  put time — equal in the sequential case, distinct under a race);
* the `GET /url/:shortUrl` handler returns its HTTP response together with
  the list of access-count increments it issues; the fire-and-forget nature
  of the increment is modelled by computing the response independently of
  the increment's outcome flag.
-/

namespace UrlShortener

/-! ## SHA-256 over byte lists (32-bit words as `Nat` mod 2^32) -/

/-- Reduce a natural number to a 32-bit word, as JS/crypto word arithmetic does. -/
def w32 (n : Nat) : Nat := n % 4294967296

/-- Right rotation of a 32-bit word by `n` bits. -/
def rotr (n x : Nat) : Nat := w32 ((x >>> n) ||| (x <<< (32 - n)))

/-- SHA-256 Ch(x,y,z) = (x ∧ y) ⊕ (¬x ∧ z); complement is xor with 2^32-1. -/
def ch (x y z : Nat) : Nat := (x &&& y) ^^^ ((x ^^^ 4294967295) &&& z)

/-- SHA-256 Maj(x,y,z). -/
def maj (x y z : Nat) : Nat := (x &&& y) ^^^ (x &&& z) ^^^ (y &&& z)

/-- SHA-256 Σ₀. -/
def bigSigma0 (x : Nat) : Nat := rotr 2 x ^^^ rotr 13 x ^^^ rotr 22 x

/-- SHA-256 Σ₁. -/
def bigSigma1 (x : Nat) : Nat := rotr 6 x ^^^ rotr 11 x ^^^ rotr 25 x

/-- SHA-256 σ₀. -/
def smallSigma0 (x : Nat) : Nat := rotr 7 x ^^^ rotr 18 x ^^^ (x >>> 3)

/-- SHA-256 σ₁. -/
def smallSigma1 (x : Nat) : Nat := rotr 17 x ^^^ rotr 19 x ^^^ (x >>> 10)

/-- The 64 SHA-256 round constants of FIPS 180-4 (K₀ = 0x428a2f98 and so
on), written in decimal. -/
def K256 : List Nat :=
  [1116352408, 1899447441, 3049323471, 3921009573, 961987163, 1508970993,
   2453635748, 2870763221, 3624381080, 310598401, 607225278, 1426881987,
   1925078388, 2162078206, 2614888103, 3248222580, 3835390401, 4022224774,
   264347078, 604807628, 770255983, 1249150122, 1555081692, 1996064986,
   2554220882, 2821834349, 2952996808, 3210313671, 3336571891, 3584528711,
   113926993, 338241895, 666307205, 773529912, 1294757372, 1396182291,
   1695183700, 1986661051, 2177026350, 2456956037, 2730485921, 2820302411,
   3259730800, 3345764771, 3516065817, 3600352804, 4094571909, 275423344,
   430227734, 506948616, 659060556, 883997877, 958139571, 1322822218,
   1537002063, 1747873779, 1955562222, 2024104815, 2227730452, 2361852424,
   2428436474, 2756734187, 3204031479, 3329325298]

/-- The 8 chaining words of the compression function. -/
structure Digest where
  h0 : Nat
  h1 : Nat
  h2 : Nat
  h3 : Nat
  h4 : Nat
  h5 : Nat
  h6 : Nat
  h7 : Nat
deriving Repr, DecidableEq

/-- SHA-256 initial hash value of FIPS 180-4 (H₀ = 0x6a09e667 and so on),
written in decimal. -/
def initDigest : Digest :=
  ⟨1779033703, 3144134277, 1013904242, 2773480762,
   1359893119, 2600822924, 528734635, 1541459225⟩

/-- One compression round, consuming a `(K[i], W[i])` pair. -/
def round1 (st : Digest) (kw : Nat × Nat) : Digest :=
  let t1 := w32 (st.h7 + bigSigma1 st.h4 + ch st.h4 st.h5 st.h6 + kw.1 + kw.2)
  let t2 := w32 (bigSigma0 st.h0 + maj st.h0 st.h1 st.h2)
  ⟨w32 (t1 + t2), st.h0, st.h1, st.h2, w32 (st.h3 + t1), st.h4, st.h5, st.h6⟩

/-- Extend a 16-word block by `k` schedule words (48 for a full schedule). -/
def extendSchedule (w : List Nat) : Nat → List Nat
  | 0 => w
  | k + 1 =>
    let w' := extendSchedule w k
    let n := w'.length
    w' ++ [w32 (smallSigma1 (w'.getD (n - 2) 0) + w'.getD (n - 7) 0 +
                smallSigma0 (w'.getD (n - 15) 0) + w'.getD (n - 16) 0)]

/-- Compress one 16-word block into the chaining state. -/
def processBlock (st : Digest) (block : List Nat) : Digest :=
  let w := extendSchedule block 48
  let f := (K256.zip w).foldl round1 st
  ⟨w32 (st.h0 + f.h0), w32 (st.h1 + f.h1), w32 (st.h2 + f.h2), w32 (st.h3 + f.h3),
   w32 (st.h4 + f.h4), w32 (st.h5 + f.h5), w32 (st.h6 + f.h6), w32 (st.h7 + f.h7)⟩

/-- Big-endian bytes → 32-bit words, four bytes at a time. -/
def toWords : List Nat → List Nat
  | b0 :: b1 :: b2 :: b3 :: rest =>
    ((((b0 <<< 8) ||| b1) <<< 8 ||| b2) <<< 8 ||| b3) :: toWords rest
  | _ => []

/-- Split a word list into 16-word blocks (structurally, so it reduces). -/
def toBlocks : List Nat → List (List Nat)
  | a0 :: a1 :: a2 :: a3 :: a4 :: a5 :: a6 :: a7 ::
    a8 :: a9 :: a10 :: a11 :: a12 :: a13 :: a14 :: a15 :: rest =>
    [a0, a1, a2, a3, a4, a5, a6, a7, a8, a9, a10, a11, a12, a13, a14, a15] ::
      toBlocks rest
  | _ => []

/-- The 8-byte big-endian encoding of the message bit length. -/
def lengthBytes (bits : Nat) : List Nat :=
  (List.range 8).map (fun i => (bits >>> (8 * (7 - i))) &&& 255)

/-- SHA-256 padding: `0x80`, zeros to 56 mod 64, then the 64-bit bit length. -/
def pad (msg : List Nat) : List Nat :=
  let r := (msg.length + 1) % 64
  let zeros := (56 + 64 - r) % 64
  msg ++ [0x80] ++ List.replicate zeros 0 ++ lengthBytes (msg.length * 8)

/-- SHA-256 of a byte list, as the final eight 32-bit digest words. -/
def sha256Words (msg : List Nat) : List Nat :=
  let d := (toBlocks (toWords (pad msg))).foldl processBlock initDigest
  [d.h0, d.h1, d.h2, d.h3, d.h4, d.h5, d.h6, d.h7]

/-- Lower-case hex digit for a value below 16. -/
def hexDigitChar (n : Nat) : Char :=
  if n < 10 then Char.ofNat (48 + n) else Char.ofNat (87 + n)

/-- A 32-bit word as 8 lower-case hex characters, most significant first. -/
def wordToHex (n : Nat) : List Char :=
  (List.range 8).map (fun i => hexDigitChar ((n >>> (4 * (7 - i))) &&& 15))

/-- UTF-8 bytes of a character, as Node's `hash.update(string)` encodes it. -/
def utf8Bytes (c : Char) : List Nat :=
  let n := c.toNat
  if n < 128 then [n]
  else if n < 2048 then [192 ||| (n >>> 6), 128 ||| (n &&& 63)]
  else if n < 65536 then
    [224 ||| (n >>> 12), 128 ||| ((n >>> 6) &&& 63), 128 ||| (n &&& 63)]
  else
    [240 ||| (n >>> 18), 128 ||| ((n >>> 12) &&& 63),
     128 ||| ((n >>> 6) &&& 63), 128 ||| (n &&& 63)]

/-- The UTF-8 byte sequence of a string. -/
def stringBytes (s : String) : List Nat := (s.data.map utf8Bytes).flatten

/-- `crypto.createHash('sha256').update(s).digest('hex')`: the 64-char hex digest. -/
def sha256hex (s : String) : String :=
  ⟨((sha256Words (stringBytes s)).map wordToHex).flatten⟩

/-! ## Data model: the `URLShortenerMappings` table -/

/-- `SHORT_URL_LENGTH = 16` in `server.js`. -/
def SHORT_URL_LENGTH : Nat := 16

/-- `TTL_DAYS = 365` in `server.js`. -/
def TTL_DAYS : Nat := 365

/-- The TTL horizon in seconds: `TTL_DAYS * 24 * 60 * 60`. -/
def TTL_SECONDS : Nat := TTL_DAYS * 24 * 60 * 60

/-- The code generator of the creation path:
`crypto.createHash('sha256').update(longUrl).digest('hex').substring(0, 16)`. -/
def generate (longUrl : String) : String :=
  (sha256hex longUrl).take SHORT_URL_LENGTH

/-- One item of the `URLShortenerMappings` table, with the attributes the
`put` writes; `created_at` (an ISO string in the code) is abstracted to the
creation epoch-second, which the claims never inspect. -/
structure UrlRecord where
  short_url : String
  long_url : String
  ttl : Nat
  created_at : Nat
  access_count : Nat
deriving Repr, DecidableEq

/-- The table: a list of items keyed by `short_url`. -/
abbrev Store := List UrlRecord

/-- Point lookup by primary key `short_url` (`get`/the conditional check). -/
def getByShortUrl (st : Store) (k : String) : Option UrlRecord :=
  st.find? (fun r => r.short_url == k)

/-- The GSI `LongURLIndex` query: all items with the given `long_url`. -/
def queryByLongUrl (st : Store) (u : String) : List UrlRecord :=
  st.filter (fun r => r.long_url == u)

/-- `put` with `ConditionExpression: 'attribute_not_exists(short_url)'`:
fails (returns `none`) exactly when the primary key is already present. -/
def conditionalPut (st : Store) (r : UrlRecord) : Option Store :=
  match getByShortUrl st r.short_url with
  | some _ => none
  | none => some (st ++ [r])

/-- An atomic `ADD access_count 1` against the store, bypassing the cache. -/
def incrementAccessCount (st : Store) (k : String) : Store :=
  st.map (fun r =>
    if r.short_url == k then
      ⟨r.short_url, r.long_url, r.ttl, r.created_at, r.access_count + 1⟩
    else r)

/-! ## The `POST /url` handler -/

/-- The HTTP responses the creation handler can produce. -/
inductive CreateResponse where
  | badRequest (error : String)
  | ok (shortUrl longUrl : String) (ttl : Nat)
  | created (shortUrl longUrl : String) (ttl : Nat)
  | serverError (error : String)
deriving Repr, DecidableEq

/-- The HTTP status code of a creation response. -/
def CreateResponse.status : CreateResponse → Nat
  | .badRequest _ => 400
  | .ok _ _ _ => 200
  | .created _ _ _ => 201
  | .serverError _ => 500

/-- The `POST /url` handler. `body` is the request's `longUrl` field
(`none` when missing); `now` is the current epoch time in seconds.
`stQuery` is the store as seen by the dedup query and `stPut` the store as
seen by the conditional put — the two I/O points of the handler; a
sequential call has `stQuery = stPut`, a lost creation race is the case
where a concurrent insert landed between the two. A failed conditional put
is caught by the handler's `catch` and answered with 500. Returns the
response and the store after the handler's writes. -/
def postUrl (body : Option String) (now : Nat) (stQuery stPut : Store) :
    CreateResponse × Store :=
  match body with
  | none => (.badRequest "longUrl is required", stPut)
  | some longUrl =>
    if longUrl = "" then (.badRequest "longUrl is required", stPut)
    else
      let shortUrl := generate longUrl
      let ttl := now + TTL_SECONDS
      match queryByLongUrl stQuery longUrl with
      | item :: _ => (.ok item.short_url longUrl item.ttl, stPut)
      | [] =>
        match conditionalPut stPut ⟨shortUrl, longUrl, ttl, now, 0⟩ with
        | some st' => (.created shortUrl longUrl ttl, st')
        | none => (.serverError "Internal server error", stPut)

/-! ## The `GET /url/:shortUrl` handler -/

/-- The HTTP responses the resolution handler can produce. -/
inductive ResolveResponse where
  | notFound (error : String)
  | redirect (location : String)
  | serverError (error : String)
deriving Repr, DecidableEq

/-- The HTTP status code of a resolution response (`redirect` is the 301). -/
def ResolveResponse.status : ResolveResponse → Nat
  | .notFound _ => 404
  | .redirect _ => 301
  | .serverError _ => 500

/-- The DAX read-through get: serve from the cache on a hit, fall back to
the store on a miss. -/
def daxGet (cache store : Store) (k : String) : Option UrlRecord :=
  match getByShortUrl cache k with
  | some r => some r
  | none => getByShortUrl store k

/-- What the resolution handler produces: the HTTP response together with
the short codes whose `access_count` increment it issued (fire-and-forget,
directly against the store). -/
structure ResolveOutcome where
  response : ResolveResponse
  increments : List String
deriving Repr, DecidableEq

/-- The `GET /url/:shortUrl` handler: DAX get; 404 on a miss; on a hit,
issue the access-count increment and answer with the 301 redirect. -/
def getUrl (shortUrl : String) (cache store : Store) : ResolveOutcome :=
  match daxGet cache store shortUrl with
  | none => ⟨.notFound "URL not found", []⟩
  | some item => ⟨.redirect item.long_url, [shortUrl]⟩

/-- The store after a resolution, given whether the detached increment
succeeded (`incrOk`): the unawaited `.promise().catch(...)` either lands
the `ADD access_count 1` or only logs its failure. -/
def storeAfterResolve (incrOk : Bool) (shortUrl : String) (cache store : Store) :
    Store :=
  match daxGet cache store shortUrl with
  | none => store
  | some _ => if incrOk then incrementAccessCount store shortUrl else store

/-- Resolution with an explicit increment outcome: the response is computed
without consulting `incrOk`, which is exactly the handler's fire-and-forget
discipline. -/
def resolveWith (incrOk : Bool) (shortUrl : String) (cache store : Store) :
    ResolveResponse × Store :=
  ((getUrl shortUrl cache store).response,
   storeAfterResolve incrOk shortUrl cache store)

/-- A well-formed table: primary keys are pairwise distinct (DynamoDB's key
uniqueness) and every item was written by the creation path, so its key is
the generated code of its `long_url`. -/
def wellFormed (st : Store) : Prop :=
  st.Pairwise (fun a b => a.short_url ≠ b.short_url) ∧
  ∀ r ∈ st, r.short_url = generate r.long_url

/-! ## Concrete inputs used by witnesses and counterexamples -/

/-- A record the creation path would write for `"a"`. -/
def demoRecA : UrlRecord := ⟨generate "a", "a", 100, 0, 0⟩

/-- The record a concurrent `create("a")` landed between our dedup query
and our conditional put. -/
def raceWinner : UrlRecord := ⟨generate "a", "a", 50, 0, 0⟩

/-- A record whose `ttl` (5) has long passed but which the store's lazy
garbage collection has not yet removed. -/
def expiredRec : UrlRecord := ⟨"abcd", "https://expired.example/x", 5, 0, 0⟩

/-- An expired record for long URL `"a"` still sitting in the table. -/
def staleRec : UrlRecord := ⟨"k1", "a", 5, 0, 0⟩

/-! ## Sanity checks of the SHA-256 embedding -/

set_option maxRecDepth 100000 in
/-- SHA-256 test vector: the empty message (FIPS 180-4 / NIST). -/
example : sha256hex "" =
    "e3b0c44298fc1c149afbf4c8996fb92427ae41e4649b934ca495991b7852b855" := by decide

set_option maxRecDepth 100000 in
/-- SHA-256 test vector: "abc" (FIPS 180-4). -/
example : sha256hex "abc" =
    "ba7816bf8f01cfea414140de5dae2223b00361a396177a9cb410ff61f20015ad" := by decide

set_option maxRecDepth 200000 in
/-- Multi-block padding check: a 100-byte message spans two blocks. -/
example : sha256hex (String.mk (List.replicate 100 'x')) =
    "09ecb6ebc8bcefc733f6f2ec44f791abeed6a99edf0cc31519637898aebd52d8" := by decide

/-! ## Helper lemmas -/

/-- In a well-formed table, the GSI query for a `long_url` matches at most
one item: all matches carry the same generated key, and keys are distinct. -/
theorem queryByLongUrl_length_le_one (st : Store) (u : String)
    (hwf : wellFormed st) : (queryByLongUrl st u).length ≤ 1 := by
  rcases hwf with ⟨hpw, hgen⟩
  have hpw' : (queryByLongUrl st u).Pairwise (fun a b => a.short_url ≠ b.short_url) :=
    hpw.sublist (List.filter_sublist st)
  have hkey : ∀ r ∈ queryByLongUrl st u, r.short_url = generate u := by
    intro r hr
    have hmem : r ∈ st := List.mem_of_mem_filter hr
    have hlu : r.long_url = u := by
      have := List.of_mem_filter hr
      simpa using this
    rw [hgen r hmem, hlu]
  cases hq : queryByLongUrl st u with
  | nil => simp
  | cons a t =>
    cases t with
    | nil => simp
    | cons b t2 =>
      exfalso
      rw [hq] at hpw' hkey
      have hab : a.short_url ≠ b.short_url :=
        (List.pairwise_cons.mp hpw').1 b (by simp)
      exact hab ((hkey a (by simp)).trans (hkey b (by simp)).symm)

/-! ## Claims -/

/-- C1: when the (well-formed) store already holds a record for long URL
`s`, `create(s)` answers 200 with the existing record's `shortCode`,
`longUrl` and `ttl` unchanged, writes nothing, and the store still holds
exactly one record for `s`. -/
theorem create_existing_is_idempotent (s : String) (now : Nat) (st : Store)
    (item : UrlRecord) (rest : List UrlRecord)
    (hne : s ≠ "") (hwf : wellFormed st)
    (hq : queryByLongUrl st s = item :: rest) :
    postUrl (some s) now st st = (.ok item.short_url s item.ttl, st) ∧
    (postUrl (some s) now st st).1.status = 200 ∧
    (queryByLongUrl st s).length = 1 := by
  refine ⟨?_, ?_, ?_⟩
  · simp [postUrl, hne, hq]
  · simp [postUrl, hne, hq, CreateResponse.status]
  · have h1 := queryByLongUrl_length_le_one st s hwf
    rw [hq] at h1 ⊢
    simp only [List.length_cons] at h1 ⊢
    omega

set_option maxRecDepth 400000 in
/-- C1 witness: a store holding the record for `"a"`. -/
theorem create_existing_is_idempotent_witness :
    postUrl (some "a") 7 [demoRecA] [demoRecA] =
      (.ok demoRecA.short_url "a" demoRecA.ttl, [demoRecA]) ∧
    (postUrl (some "a") 7 [demoRecA] [demoRecA]).1.status = 200 ∧
    (queryByLongUrl [demoRecA] "a").length = 1 :=
  create_existing_is_idempotent "a" 7 [demoRecA] demoRecA [] (by decide)
    (by constructor
        · simp
        · intro r hr
          simp only [List.mem_singleton] at hr
          rw [hr]
          rfl)
    rfl

set_option maxRecDepth 400000 in
/-- C2 counterexample: a `create("a")` whose dedup query saw an empty store
but whose conditional put hits the record a concurrent `create("a")` already
inserted is answered with 500 Internal server error — not with the winning
record (a 200). -/
theorem create_race_500_counterexample :
    postUrl (some "a") 100 [] [raceWinner] =
      (.serverError "Internal server error", [raceWinner]) ∧
    (postUrl (some "a") 100 [] [raceWinner]).1.status = 500 ∧
    (postUrl (some "a") 100 [] [raceWinner]).1.status ≠ 200 := by
  refine ⟨?_, ?_, ?_⟩ <;>
    simp [postUrl, queryByLongUrl, conditionalPut, getByShortUrl, raceWinner,
          CreateResponse.status]

/-- C2 amended: when the conditional write fails because the short code
already exists (a concurrent duplicate insert won the race between the
dedup query and the put), the handler's catch answers 500 Internal server
error and writes nothing further; it does not re-read the winning record. -/
theorem create_race_returns_500 (s : String) (now : Nat) (stQ stP : Store)
    (w : UrlRecord) (hne : s ≠ "") (hq : queryByLongUrl stQ s = [])
    (hw : getByShortUrl stP (generate s) = some w) :
    postUrl (some s) now stQ stP = (.serverError "Internal server error", stP) ∧
    (postUrl (some s) now stQ stP).1.status = 500 := by
  constructor <;> simp [postUrl, hne, hq, conditionalPut, hw, CreateResponse.status]

set_option maxRecDepth 400000 in
/-- C2 witness: the concrete race of the counterexample, through the
amended statement. -/
theorem create_race_returns_500_witness :
    postUrl (some "a") 100 [] [raceWinner] =
      (.serverError "Internal server error", [raceWinner]) ∧
    (postUrl (some "a") 100 [] [raceWinner]).1.status = 500 :=
  create_race_returns_500 "a" 100 [] [raceWinner] raceWinner (by decide) rfl
    (by simp [getByShortUrl, raceWinner])

/-- C3 counterexample: a record whose `ttl` (5) is far in the past (now =
1000) but which is still physically present is resolved to a 301 redirect,
not treated as absent with a 404. -/
theorem resolve_expired_redirect_counterexample :
    expiredRec.ttl < 1000 ∧
    (getUrl "abcd" [] [expiredRec]).response =
      .redirect "https://expired.example/x" ∧
    (getUrl "abcd" [] [expiredRec]).response ≠ .notFound "URL not found" ∧
    ResolveResponse.status (getUrl "abcd" [] [expiredRec]).response = 301 := by
  decide

/-- C3 amended: `resolve` never consults `expiresAt`. A record whose `ttl`
has passed but which the store's lazy garbage collection has not yet
removed still resolves: the caller gets the 301 redirect to its `longUrl`;
only a physically absent record yields 404. -/
theorem resolve_ignores_expiry (now : Nat) (k : String) (cache store : Store)
    (item : UrlRecord) (hhit : daxGet cache store k = some item)
    (hexp : item.ttl < now) :
    (getUrl k cache store).response = .redirect item.long_url ∧
    ResolveResponse.status (getUrl k cache store).response = 301 := by
  constructor <;> simp [getUrl, hhit, ResolveResponse.status]

/-- C3 witness: the expired record of the counterexample, resolved. -/
theorem resolve_ignores_expiry_witness :
    (getUrl "abcd" [] [expiredRec]).response = .redirect expiredRec.long_url ∧
    ResolveResponse.status (getUrl "abcd" [] [expiredRec]).response = 301 :=
  resolve_ignores_expiry 1000 "abcd" [] [expiredRec] expiredRec (by decide)
    (by decide)

set_option maxRecDepth 400000 in
/-- C4 counterexample: the code generator applied to
`"https://example.com/very/long/url"` yields `"8ec596c44bd62b6b"` — the
first 16 hex characters of the real SHA-256 digest — and not the
`"d4c9d9027326271a"` the spec's example states. -/
theorem generate_example_counterexample :
    generate "https://example.com/very/long/url" = "8ec596c44bd62b6b" ∧
    generate "https://example.com/very/long/url" ≠ "d4c9d9027326271a" := by
  constructor <;> decide

set_option maxRecDepth 400000 in
/-- C4 amended: the short code of the creation path is the first 16 hex
characters of the SHA-256 hex digest of the exact bytes of `longUrl`, with
no normalization (the same URL with a trailing slash hashes differently);
in particular `"https://example.com/very/long/url"` yields
`"8ec596c44bd62b6b"`. -/
theorem create_shortcode_sha256_first16 (longUrl : String) (now : Nat)
    (st : Store) (hne : longUrl ≠ "") (hq : queryByLongUrl st longUrl = [])
    (hfree : getByShortUrl st (generate longUrl) = none) :
    (postUrl (some longUrl) now st st).1 =
      .created ((sha256hex longUrl).take 16) longUrl (now + TTL_SECONDS) ∧
    generate "https://example.com/very/long/url" = "8ec596c44bd62b6b" ∧
    generate "https://example.com/very/long/url" ≠
      generate "https://example.com/very/long/url/" := by
  have hfree' : getByShortUrl st ((sha256hex longUrl).take 16) = none := hfree
  refine ⟨?_, by decide, by decide⟩
  simp [postUrl, hne, hq, conditionalPut, hfree', generate, SHORT_URL_LENGTH]

set_option maxRecDepth 400000 in
/-- C4 witness: creating `"a"` against an empty store. -/
theorem create_shortcode_sha256_first16_witness :
    (postUrl (some "a") 0 [] []).1 =
      .created ((sha256hex "a").take 16) "a" (0 + TTL_SECONDS) ∧
    generate "https://example.com/very/long/url" = "8ec596c44bd62b6b" ∧
    generate "https://example.com/very/long/url" ≠
      generate "https://example.com/very/long/url/" :=
  create_shortcode_sha256_first16 "a" 0 [] (by decide) rfl rfl

/-- C5: after a fresh `create(s)` succeeds with 201, resolving the returned
short code — through a read-through cache coherent with the store — answers
the 301 redirect to exactly `s`, at any time before the record expires. -/
theorem create_then_resolve_roundtrip (s : String) (nowC nowR : Nat)
    (st cache : Store) (hne : s ≠ "")
    (hq : queryByLongUrl st s = [])
    (hfree : getByShortUrl st (generate s) = none)
    (hcoh : ∀ k r, getByShortUrl cache k = some r →
        getByShortUrl (postUrl (some s) nowC st st).2 k = some r)
    (hfresh : nowR < nowC + TTL_SECONDS) :
    (postUrl (some s) nowC st st).1.status = 201 ∧
    (getUrl (generate s) cache (postUrl (some s) nowC st st).2).response =
      .redirect s := by
  have hpost : postUrl (some s) nowC st st =
      (.created (generate s) s (nowC + TTL_SECONDS),
       st ++ [⟨generate s, s, nowC + TTL_SECONDS, nowC, 0⟩]) := by
    simp [postUrl, hne, hq, conditionalPut, hfree]
  have hstore : getByShortUrl (postUrl (some s) nowC st st).2 (generate s) =
      some ⟨generate s, s, nowC + TTL_SECONDS, nowC, 0⟩ := by
    rw [hpost]
    unfold getByShortUrl at hfree ⊢
    rw [List.find?_append, hfree, Option.none_or]
    exact List.find?_cons_of_pos _ (by simp)
  have hdax : daxGet cache (postUrl (some s) nowC st st).2 (generate s) =
      some (⟨generate s, s, nowC + TTL_SECONDS, nowC, 0⟩ : UrlRecord) := by
    unfold daxGet
    cases hc : getByShortUrl cache (generate s) with
    | none => simp [hstore]
    | some r =>
      have h2 := hcoh _ _ hc
      rw [hstore] at h2
      injection h2 with h3
      simp [h3]
  refine ⟨by rw [hpost]; rfl, ?_⟩
  simp [getUrl, hdax]

set_option maxRecDepth 400000 in
/-- C5 witness: create `"a"` in an empty store with an empty cache, then
resolve its code. -/
theorem create_then_resolve_roundtrip_witness :
    (postUrl (some "a") 0 [] []).1.status = 201 ∧
    (getUrl (generate "a") [] (postUrl (some "a") 0 [] []).2).response =
      .redirect "a" :=
  create_then_resolve_roundtrip "a" 0 1 [] [] (by decide) rfl rfl
    (by intro k r h; simp [getByShortUrl] at h) (by decide)

/-- C6: `create(s)` against a store with no record for `s` and a free key
inserts exactly one record, with `access_count = 0` and
`ttl = now + 365 days` in seconds, and answers 201 with the record's
`{shortUrl, longUrl, ttl}`. -/
theorem create_new_inserts_fresh_record (s : String) (now : Nat) (st : Store)
    (hne : s ≠ "") (hq : queryByLongUrl st s = [])
    (hfree : getByShortUrl st (generate s) = none) :
    postUrl (some s) now st st =
      (.created (generate s) s (now + 365 * 24 * 60 * 60),
       st ++ [⟨generate s, s, now + 365 * 24 * 60 * 60, now, 0⟩]) ∧
    (postUrl (some s) now st st).1.status = 201 := by
  constructor <;>
    simp [postUrl, hne, hq, conditionalPut, hfree, TTL_SECONDS, TTL_DAYS,
          CreateResponse.status]

set_option maxRecDepth 400000 in
/-- C6 witness: creating `"a"` in the empty store. -/
theorem create_new_inserts_fresh_record_witness :
    postUrl (some "a") 10 [] [] =
      (.created (generate "a") "a" (10 + 365 * 24 * 60 * 60),
       [] ++ [⟨generate "a", "a", 10 + 365 * 24 * 60 * 60, 10, 0⟩]) ∧
    (postUrl (some "a") 10 [] []).1.status = 201 :=
  create_new_inserts_fresh_record "a" 10 [] (by decide) rfl rfl

/-- C7: resolving a code present in neither the cache nor the store answers
404 with the body `{"error": "URL not found"}` and issues no access-count
increment. -/
theorem resolve_missing_not_found (k : String) (cache store : Store)
    (hc : getByShortUrl cache k = none) (hs : getByShortUrl store k = none) :
    getUrl k cache store = ⟨.notFound "URL not found", []⟩ ∧
    ResolveResponse.status (getUrl k cache store).response = 404 := by
  constructor <;> simp [getUrl, daxGet, hc, hs, ResolveResponse.status]

/-- C7 witness: the never-created code `"0000000000000000"`. -/
theorem resolve_missing_not_found_witness :
    getUrl "0000000000000000" [] [] = ⟨.notFound "URL not found", []⟩ ∧
    ResolveResponse.status (getUrl "0000000000000000" [] []).response = 404 :=
  resolve_missing_not_found "0000000000000000" [] [] rfl rfl

/-- C8: a request with no `longUrl`, or with the empty string, is answered
400 with `{"error": "longUrl is required"}` and nothing is written; any
non-empty string passes validation — the response is never a 400. -/
theorem create_validates_longUrl (s : String) (now : Nat) (st : Store)
    (hne : s ≠ "") :
    postUrl none now st st = (.badRequest "longUrl is required", st) ∧
    (postUrl none now st st).1.status = 400 ∧
    postUrl (some "") now st st = (.badRequest "longUrl is required", st) ∧
    (postUrl (some s) now st st).1.status ≠ 400 := by
  refine ⟨rfl, rfl, by simp [postUrl], ?_⟩
  rcases hq : queryByLongUrl st s with _ | ⟨a, t⟩
  · rcases hp : conditionalPut st ⟨generate s, s, now + TTL_SECONDS, now, 0⟩
      with _ | st'
    · simp [postUrl, hne, hq, hp, CreateResponse.status]
    · simp [postUrl, hne, hq, hp, CreateResponse.status]
  · simp [postUrl, hne, hq, CreateResponse.status]

/-- C8 witness: a missing body, the empty string, and the accepted
non-empty string `"not a url"`, against the empty store. -/
theorem create_validates_longUrl_witness :
    postUrl none 3 [] [] = (.badRequest "longUrl is required", []) ∧
    (postUrl none 3 [] []).1.status = 400 ∧
    postUrl (some "") 3 [] [] = (.badRequest "longUrl is required", []) ∧
    (postUrl (some "not a url") 3 [] []).1.status ≠ 400 :=
  create_validates_longUrl "not a url" 3 [] (by decide)

/-- C9: on a hit from either tier, the handler issues exactly one
access-count increment, aimed directly at the store; the increment is not
awaited: whether it succeeds or fails, the caller gets the same 301
redirect; a failed increment only leaves the store unchanged, a successful
one adds exactly 1 to the found record's counter via the store write. -/
theorem resolve_hit_fire_and_forget (k : String) (cache store : Store)
    (item : UrlRecord) (hhit : daxGet cache store k = some item) :
    (getUrl k cache store).increments = [k] ∧
    (resolveWith true k cache store).1 = .redirect item.long_url ∧
    (resolveWith false k cache store).1 = .redirect item.long_url ∧
    (resolveWith false k cache store).2 = store ∧
    (resolveWith true k cache store).2 = incrementAccessCount store k := by
  refine ⟨?_, ?_, ?_, ?_, ?_⟩ <;>
    simp [getUrl, resolveWith, storeAfterResolve, hhit]

/-- C9 witness: resolving the still-live record `staleRec`'s code through an
empty cache. -/
theorem resolve_hit_fire_and_forget_witness :
    (getUrl "k1" [] [staleRec]).increments = ["k1"] ∧
    (resolveWith true "k1" [] [staleRec]).1 = .redirect staleRec.long_url ∧
    (resolveWith false "k1" [] [staleRec]).1 = .redirect staleRec.long_url ∧
    (resolveWith false "k1" [] [staleRec]).2 = [staleRec] ∧
    (resolveWith true "k1" [] [staleRec]).2 = incrementAccessCount [staleRec] "k1" :=
  resolve_hit_fire_and_forget "k1" [] [staleRec] staleRec (by decide)

/-- C10: the dedup query does not filter on `ttl`: a `create(s)` issued
while an expired-but-not-yet-collected record for `s` is still in the table
matches it and answers 200 with that record's `shortCode` and its past
`ttl`, writing nothing — no fresh record with a new 365-day `ttl`. -/
theorem create_dedup_matches_expired (s : String) (now : Nat) (st : Store)
    (item : UrlRecord) (rest : List UrlRecord) (hne : s ≠ "")
    (hq : queryByLongUrl st s = item :: rest) (hexp : item.ttl < now) :
    postUrl (some s) now st st = (.ok item.short_url s item.ttl, st) ∧
    (postUrl (some s) now st st).1.status = 200 := by
  constructor <;> simp [postUrl, hne, hq, CreateResponse.status]

/-- C10 witness: creating `"a"` at `now = 100` while the expired
(`ttl = 5`) record `staleRec` for `"a"` is still stored. -/
theorem create_dedup_matches_expired_witness :
    postUrl (some "a") 100 [staleRec] [staleRec] =
      (.ok staleRec.short_url "a" staleRec.ttl, [staleRec]) ∧
    (postUrl (some "a") 100 [staleRec] [staleRec]).1.status = 200 :=
  create_dedup_matches_expired "a" 100 [staleRec] staleRec [] (by decide) rfl
    (by decide)

end UrlShortener
